import Mathlib

/-!
Verification of the offline-aware data-access layer of the SPMCCB song-book
application. The definitions below are a shallow embedding of the TypeScript
source: the `OfflineContext` provider (cache state, settings, persistence
blobs), the `useSupabase` data accessor (favourite / folder / song-folder
operations, search, bulk sync), and the client-side song filter of the songs
screen. Remote backend responses are passed in explicitly as `Except` values;
asynchronous effects are modelled as explicit state passing.
-/

/-- Theme mode, from `type ThemeMode = 'light' | 'dark'` in Config. -/
inductive ThemeMode where
  | light
  | dark
deriving DecidableEq

/-- Song row, from `interface Song` in Config. -/
structure Song where
  id : Nat
  song_number : Nat
  title : String
  lyrics : String
  created_at : Option String
  updated_at : Option String
deriving DecidableEq

/-- Favourite row, from `interface Favourite` in Config. -/
structure Favourite where
  id : Option Nat
  user_id : String
  song_id : Nat
  created_at : Option String
  song : Option Song
deriving DecidableEq

/-- Folder row, from `interface Folder` in Config. -/
structure Folder where
  id : Option Nat
  user_id : String
  name : String
  created_at : Option String
  updated_at : Option String
deriving DecidableEq

/-- Song-folder link row, from `interface SongFolder` in Config. -/
structure SongFolder where
  id : Option Nat
  song_id : Nat
  folder_id : Nat
  created_at : Option String
  song : Option Song
deriving DecidableEq

/-- Authenticated user, from `interface User` in Config. -/
structure User where
  id : String
  email : String
  username : Option String
deriving DecidableEq

/-- App settings, from `interface AppSettings` in Config. -/
structure AppSettings where
  theme : ThemeMode
  fontSize : Int
  autoSync : Bool
deriving DecidableEq

/-- Persisted cache snapshot, from `interface CacheData` in Config. -/
structure CacheData where
  songs : List Song
  favourites : List Favourite
  folders : List Folder
  lastUpdated : Int
deriving DecidableEq

/-- Result shape of every accessor operation, from `interface ApiResponse<T>`
in Config: `data: T | null; error: string | null`. -/
structure ApiResponse (α : Type) where
  data : Option α
  error : Option String
deriving DecidableEq

/-- Argument type of `updateCache`: a subset of the three list fields of
`CacheData` (the TypeScript signature takes a partial `CacheData`; an absent
field is `none`). -/
structure CacheUpdate where
  songs : Option (List Song) := none
  favourites : Option (List Favourite) := none
  folders : Option (List Folder) := none
deriving DecidableEq

/-- Argument type of `updateSettings`: a subset of the `AppSettings` fields. -/
structure SettingsUpdate where
  theme : Option ThemeMode := none
  fontSize : Option Int := none
  autoSync : Option Bool := none
deriving DecidableEq

/-- From `APP_CONFIG.cacheTimeout` in Config: 24 hours in milliseconds. -/
def cacheTimeout : Int := 24 * 60 * 60 * 1000

/-- State of the `OfflineProvider`: the three in-memory cached lists, the
last-sync timestamp, the current settings, and the three persisted
AsyncStorage blobs (keys `songbook_cache_data`, `songbook_settings`,
`songbook_last_sync`). Timestamps are integers (milliseconds). -/
structure OfflineState where
  cachedSongs : List Song
  cachedFavourites : List Favourite
  cachedFolders : List Folder
  lastSync : Option Int
  settings : AppSettings
  storedCache : Option CacheData
  storedSettings : Option AppSettings
  storedLastSync : Option Int
deriving DecidableEq

/-- Embedding of `updateCache(data)` of OfflineContext, with `now` standing
for `Date.now()`: each provided field replaces the corresponding in-memory
list; the persisted snapshot is rebuilt from the provided fields, falling
back to the current in-memory value for omitted fields; the last-sync
timestamp (in memory and persisted) is set to now. -/
def updateCache (data : CacheUpdate) (now : Int) (s : OfflineState) : OfflineState :=
  let cacheData : CacheData :=
    { songs := data.songs.getD s.cachedSongs
      favourites := data.favourites.getD s.cachedFavourites
      folders := data.folders.getD s.cachedFolders
      lastUpdated := now }
  { s with
    cachedSongs := data.songs.getD s.cachedSongs
    cachedFavourites := data.favourites.getD s.cachedFavourites
    cachedFolders := data.folders.getD s.cachedFolders
    storedCache := some cacheData
    storedLastSync := some now
    lastSync := some now }

/-- Embedding of `clearCache()` of OfflineContext: removes the persisted
cache-data and last-sync blobs and resets the in-memory lists and last-sync
to empty; settings are untouched. -/
def clearCache (s : OfflineState) : OfflineState :=
  { s with
    cachedSongs := []
    cachedFavourites := []
    cachedFolders := []
    lastSync := none
    storedCache := none
    storedLastSync := none }

/-- Embedding of `updateSettings(newSettings)` of OfflineContext: merges the
provided fields over the current settings and persists the merged record
under the settings key. -/
def updateSettings (newSettings : SettingsUpdate) (s : OfflineState) : OfflineState :=
  let updated : AppSettings :=
    { theme := newSettings.theme.getD s.settings.theme
      fontSize := newSettings.fontSize.getD s.settings.fontSize
      autoSync := newSettings.autoSync.getD s.settings.autoSync }
  { s with settings := updated, storedSettings := some updated }

/-- Embedding of `toggleTheme()` of OfflineContext. -/
def toggleTheme (s : OfflineState) : OfflineState :=
  let newTheme : ThemeMode := if s.settings.theme = ThemeMode.light then ThemeMode.dark else ThemeMode.light
  updateSettings { theme := some newTheme } s

/-- Embedding of `updateFontSize(size)` of OfflineContext:
`updateSettings({ fontSize: Math.max(12, Math.min(32, size)) })`. -/
def updateFontSize (size : Int) (s : OfflineState) : OfflineState :=
  updateSettings { fontSize := some (max 12 (min 32 size)) } s

/-- Embedding of `isCacheExpired()` of OfflineContext, with `now` standing
for `Date.now()`: true when no last-sync timestamp exists, otherwise true
exactly when the elapsed time exceeds `APP_CONFIG.cacheTimeout`. -/
def isCacheExpired (now : Int) (s : OfflineState) : Bool :=
  match s.lastSync with
  | none => true
  | some t => decide (now - t > cacheTimeout)

/-- Embedding of `getSongs()` of OfflineContext. -/
def getSongs (s : OfflineState) : List Song :=
  s.cachedSongs

/-- Embedding of `getFavourites()` of OfflineContext: empty when signed out,
otherwise the cached favourites filtered to the current user id. -/
def getFavourites (user : Option User) (s : OfflineState) : List Favourite :=
  match user with
  | none => []
  | some u => s.cachedFavourites.filter (fun fav => fav.user_id == u.id)

/-- Embedding of `getFolders()` of OfflineContext: empty when signed out,
otherwise the cached folders filtered to the current user id. -/
def getFolders (user : Option User) (s : OfflineState) : List Folder :=
  match user with
  | none => []
  | some u => s.cachedFolders.filter (fun folder => folder.user_id == u.id)

/-- Runs a sequence of `updateCache` calls (each paired with its wall-clock
time) from an initial state. -/
def applyUpdates (us : List (CacheUpdate × Int)) (s : OfflineState) : OfflineState :=
  us.foldl (fun st u => updateCache u.1 u.2 st) s

/-- Last `some` value in a list of options, with a default for the case that
every entry is `none`. -/
def lastOr (os : List (Option α)) (d : α) : α :=
  match os with
  | [] => d
  | o :: rest => lastOr rest (o.getD d)

/-- Helper for C1: one `updateCache` step sets each in-memory list to the
provided value when present and keeps the current value otherwise. -/
theorem updateCache_mem_fields (p : CacheUpdate) (now : Int) (s : OfflineState) :
    (updateCache p now s).cachedSongs = p.songs.getD s.cachedSongs ∧
    (updateCache p now s).cachedFavourites = p.favourites.getD s.cachedFavourites ∧
    (updateCache p now s).cachedFolders = p.folders.getD s.cachedFolders := by
  refine ⟨rfl, rfl, rfl⟩

/-- C1: across any sequence of `updateCache` calls from any starting state,
each in-memory field (songs, favourites, folders) ends at the last value
provided for that field in the sequence, and keeps its initial value when
the field is never provided (last-write-wins per field, omitted fields
untouched). -/
theorem spec_C1_updateCache_last_write_wins (us : List (CacheUpdate × Int)) (s : OfflineState) :
    (applyUpdates us s).cachedSongs = lastOr (us.map fun u => u.1.songs) s.cachedSongs ∧
    (applyUpdates us s).cachedFavourites = lastOr (us.map fun u => u.1.favourites) s.cachedFavourites ∧
    (applyUpdates us s).cachedFolders = lastOr (us.map fun u => u.1.folders) s.cachedFolders := by
  induction us generalizing s with
  | nil => exact ⟨rfl, rfl, rfl⟩
  | cons u rest ih =>
    simpa [applyUpdates, lastOr, updateCache] using ih (updateCache u.1 u.2 s)

/-- C2: `isCacheExpired` is a pure predicate of the stored last-sync
timestamp: it is true when no timestamp exists (in particular right after
`clearCache`), false at the moment of any `updateCache`, and with a stored
timestamp it is true exactly when the elapsed wall-clock time exceeds the
24-hour window. -/
theorem spec_C2_isCacheExpired (s : OfflineState) (p : CacheUpdate) (now now2 t : Int) :
    isCacheExpired now (clearCache s) = true ∧
    isCacheExpired now (updateCache p now s) = false ∧
    (s.lastSync = none → isCacheExpired now s = true) ∧
    (s.lastSync = some t → (isCacheExpired now2 s = true ↔ now2 - t > cacheTimeout)) := by
  refine ⟨rfl, ?_, ?_, ?_⟩
  · simp [isCacheExpired, updateCache, cacheTimeout]
  · intro h
    simp [isCacheExpired, h]
  · intro h
    simp [isCacheExpired, h]

/-- Witness for C2 at concrete inputs. -/
theorem spec_C2_isCacheExpired_witness :
    isCacheExpired 86400006 (OfflineState.mk [] [] [] (some 5) (AppSettings.mk ThemeMode.light 16 true) none none none) = true := by
  exact ((spec_C2_isCacheExpired
    (OfflineState.mk [] [] [] (some 5) (AppSettings.mk ThemeMode.light 16 true) none none none)
    {} 0 86400006 5).2.2.2 rfl).mpr (by decide)

/-- C5: `getFavourites` and `getFolders` return the empty list when no user
is authenticated, and with an authenticated user they return exactly the
cached rows whose user_id equals that user's id. -/
theorem spec_C5_user_scoped_getters (u : User) (s : OfflineState) (f : Favourite) (g : Folder) :
    getFavourites none s = [] ∧
    getFolders none s = [] ∧
    (f ∈ getFavourites (some u) s ↔ f ∈ s.cachedFavourites ∧ f.user_id = u.id) ∧
    (g ∈ getFolders (some u) s ↔ g ∈ s.cachedFolders ∧ g.user_id = u.id) := by
  refine ⟨rfl, rfl, ?_, ?_⟩
  · simp [getFavourites, List.mem_filter]
  · simp [getFolders, List.mem_filter]

/-- C8: settings mutations (`updateSettings`, `toggleTheme`,
`updateFontSize`) leave the cached lists and the persisted data snapshot
unchanged, and cache mutations (`updateCache`, `clearCache`) leave the
in-memory settings and the persisted settings blob unchanged. -/
theorem spec_C8_settings_cache_independent (s : OfflineState) (ps : SettingsUpdate)
    (p : CacheUpdate) (now : Int) (size : Int) :
    ((updateSettings ps s).cachedSongs = s.cachedSongs ∧
     (updateSettings ps s).cachedFavourites = s.cachedFavourites ∧
     (updateSettings ps s).cachedFolders = s.cachedFolders ∧
     (updateSettings ps s).storedCache = s.storedCache) ∧
    ((toggleTheme s).cachedSongs = s.cachedSongs ∧
     (toggleTheme s).cachedFavourites = s.cachedFavourites ∧
     (toggleTheme s).cachedFolders = s.cachedFolders ∧
     (toggleTheme s).storedCache = s.storedCache) ∧
    ((updateFontSize size s).cachedSongs = s.cachedSongs ∧
     (updateFontSize size s).cachedFavourites = s.cachedFavourites ∧
     (updateFontSize size s).cachedFolders = s.cachedFolders ∧
     (updateFontSize size s).storedCache = s.storedCache) ∧
    ((updateCache p now s).settings = s.settings ∧
     (updateCache p now s).storedSettings = s.storedSettings) ∧
    ((clearCache s).settings = s.settings ∧
     (clearCache s).storedSettings = s.storedSettings) := by
  refine ⟨⟨rfl, rfl, rfl, rfl⟩, ⟨rfl, rfl, rfl, rfl⟩, ⟨rfl, rfl, rfl, rfl⟩, ⟨rfl, rfl⟩, rfl, rfl⟩

/-- C9: `updateFontSize(size)` stores the font size clamped to [12, 32] as
`max 12 (min 32 size)` and leaves the theme and autoSync settings
unchanged. -/
theorem spec_C9_updateFontSize_clamps (size : Int) (s : OfflineState) :
    (updateFontSize size s).settings.fontSize = max 12 (min 32 size) ∧
    (updateFontSize size s).settings.theme = s.settings.theme ∧
    (updateFontSize size s).settings.autoSync = s.settings.autoSync := by
  refine ⟨rfl, rfl, rfl⟩

/-- Embedding of `fetchFavourites()` of useSupabase. The remote query result
is the `backend` argument; the returned triple is (response, whether a
network call was made, the cached favourites list afterwards). With no user
it returns `{ data: [], error: 'No user found' }` without touching the
network; on success it pushes the fetched rows into the cache. -/
def fetchFavourites (user : Option User) (backend : Except String (List Favourite))
    (cache : List Favourite) : ApiResponse (List Favourite) × Bool × List Favourite :=
  match user with
  | none => ({ data := some [], error := some "No user found" }, false, cache)
  | some _ =>
    match backend with
    | Except.error msg => ({ data := none, error := some msg }, true, cache)
    | Except.ok rows => ({ data := some rows, error := none }, true, rows)

/-- Embedding of `addFavourite(songId)` of useSupabase: fails fast with no
user; returns the existing cached (user, song) row when present without a
network call; otherwise inserts remotely (the `backend` argument is the
inserted row or the remote error) and appends the new row to the cache. -/
def addFavourite (user : Option User) (songId : Nat) (backend : Except String Favourite)
    (cache : List Favourite) : ApiResponse Favourite × Bool × List Favourite :=
  match user with
  | none => ({ data := none, error := some "No user found" }, false, cache)
  | some u =>
    match cache.find? (fun fav => fav.song_id == songId && fav.user_id == u.id) with
    | some existingFav => ({ data := some existingFav, error := none }, false, cache)
    | none =>
      match backend with
      | Except.error msg => ({ data := none, error := some msg }, true, cache)
      | Except.ok row => ({ data := some row, error := none }, true, cache ++ [row])

/-- Embedding of `removeFavourite(songId)` of useSupabase: fails fast with no
user; otherwise deletes remotely and filters the (user, song) row out of the
cache on success. -/
def removeFavourite (user : Option User) (songId : Nat) (backend : Except String Unit)
    (cache : List Favourite) : ApiResponse Bool × Bool × List Favourite :=
  match user with
  | none => ({ data := some false, error := some "No user found" }, false, cache)
  | some u =>
    match backend with
    | Except.error msg => ({ data := some false, error := some msg }, true, cache)
    | Except.ok _ =>
      ({ data := some true, error := none }, true,
        cache.filter (fun fav => !(fav.song_id == songId && fav.user_id == u.id)))

/-- Embedding of `fetchFolders()` of useSupabase: fails fast with no user;
on success it pushes the fetched rows into the folders cache. -/
def fetchFolders (user : Option User) (backend : Except String (List Folder))
    (cache : List Folder) : ApiResponse (List Folder) × Bool × List Folder :=
  match user with
  | none => ({ data := some [], error := some "No user found" }, false, cache)
  | some _ =>
    match backend with
    | Except.error msg => ({ data := none, error := some msg }, true, cache)
    | Except.ok rows => ({ data := some rows, error := none }, true, rows)

/-- Embedding of `createFolder(name)` of useSupabase: fails fast with no
user; on a successful insert it refreshes the folders cache with a full
re-fetch (the `refetch` argument is that second remote result). -/
def createFolder (user : Option User) (name : String) (backend : Except String Folder)
    (refetch : Except String (List Folder)) (cache : List Folder) :
    ApiResponse Folder × Bool × List Folder :=
  match user with
  | none => ({ data := none, error := some "No user found" }, false, cache)
  | some u =>
    match backend with
    | Except.error msg => ({ data := none, error := some msg }, true, cache)
    | Except.ok row => ({ data := some row, error := none }, true, (fetchFolders (some u) refetch cache).2.2)

/-- Embedding of `updateFolder(id, name)` of useSupabase: fails fast with no
user; on a successful update it refreshes the folders cache with a full
re-fetch. -/
def updateFolder (user : Option User) (id : Nat) (name : String) (backend : Except String Folder)
    (refetch : Except String (List Folder)) (cache : List Folder) :
    ApiResponse Folder × Bool × List Folder :=
  match user with
  | none => ({ data := none, error := some "No user found" }, false, cache)
  | some u =>
    match backend with
    | Except.error msg => ({ data := none, error := some msg }, true, cache)
    | Except.ok row => ({ data := some row, error := none }, true, (fetchFolders (some u) refetch cache).2.2)

/-- Embedding of `deleteFolder(id)` of useSupabase: fails fast with no user;
on a successful delete it refreshes the folders cache with a full
re-fetch. -/
def deleteFolder (user : Option User) (id : Nat) (backend : Except String Unit)
    (refetch : Except String (List Folder)) (cache : List Folder) :
    ApiResponse Bool × Bool × List Folder :=
  match user with
  | none => ({ data := some false, error := some "No user found" }, false, cache)
  | some u =>
    match backend with
    | Except.error msg => ({ data := some false, error := some msg }, true, cache)
    | Except.ok _ => ({ data := some true, error := none }, true, (fetchFolders (some u) refetch cache).2.2)

/-- Embedding of `addSongToFolder(songId, folderId)` of useSupabase. The
source performs the remote insert without any authenticated-user guard, so
the `user` argument is unused and the network call always happens. -/
def addSongToFolder (user : Option User) (songId folderId : Nat)
    (backend : Except String SongFolder) : ApiResponse SongFolder × Bool :=
  match backend with
  | Except.error msg => ({ data := none, error := some msg }, true)
  | Except.ok row => ({ data := some row, error := none }, true)

/-- Embedding of `removeSongFromFolder(songId, folderId)` of useSupabase.
Like `addSongToFolder`, the source has no authenticated-user guard. -/
def removeSongFromFolder (user : Option User) (songId folderId : Nat)
    (backend : Except String Unit) : ApiResponse Bool × Bool :=
  match backend with
  | Except.error msg => ({ data := some false, error := some msg }, true)
  | Except.ok _ => ({ data := some true, error := none }, true)

/-- Embedding of `getFolderSongCount(folderId)` of useSupabase: the remote
count query either errors (mapped to 0) or yields `count` (`null` mapped to
0 by `count || 0`). The return type is a bare number; no error channel
exists. -/
def getFolderSongCount (backend : Except String (Option Nat)) : Nat :=
  match backend with
  | Except.error _ => 0
  | Except.ok count => count.getD 0

/-- JavaScript truthiness of an `error` field of type `string | null`:
`null` and the empty string are falsy. -/
def errTruthy : Option String → Bool
  | none => false
  | some s => !(s == "")

/-- Embedding of the error aggregation in `syncAllData`:
`[a, b, c].filter(Boolean).join(', ')`. -/
def joinedErrors (e1 e2 e3 : Option String) : String :=
  String.intercalate ", " (([e1, e2, e3].filterMap id).filter (fun s => !(s == "")))

/-- Embedding of `syncAllData()` of useSupabase, given the results of the
three concurrent collection fetches: succeeds only when none of the three
carries an error; otherwise reports the joined individual error messages. -/
def syncAllData (rs : ApiResponse (List Song)) (rf : ApiResponse (List Favourite))
    (rfo : ApiResponse (List Folder)) : ApiResponse Bool :=
  if errTruthy rs.error || errTruthy rf.error || errTruthy rfo.error then
    { data := some false, error := some (joinedErrors rs.error rf.error rfo.error) }
  else
    { data := some true, error := none }

/-- Favourite rows with pairwise distinct (user_id, song_id) pairs. -/
def FavsNoDup (l : List Favourite) : Prop :=
  List.Pairwise (fun a b => a.user_id ≠ b.user_id ∨ a.song_id ≠ b.song_id) l

/-- C3: adding the same (user, song) favourite twice returns the same row
both times, the second call returns a row already present in the cache
without changing it, and a duplicate-free favourites cache stays free of
duplicate (user_id, song_id) pairs. The first call is given a successful
backend insert of `row` (which, as in the source, carries the user and song
ids being inserted); the backend response of the second call is
arbitrary. -/
theorem spec_C3_addFavourite_idempotent (u : User) (songId : Nat) (cache : List Favourite)
    (row : Favourite) (b2 : Except String Favourite)
    (hU : row.user_id = u.id) (hS : row.song_id = songId)
    (hnd : FavsNoDup cache) :
    (addFavourite (some u) songId b2 (addFavourite (some u) songId (Except.ok row) cache).2.2).1.data
        = (addFavourite (some u) songId (Except.ok row) cache).1.data ∧
    (∃ x, (addFavourite (some u) songId b2 (addFavourite (some u) songId (Except.ok row) cache).2.2).1.data = some x ∧
        x ∈ (addFavourite (some u) songId (Except.ok row) cache).2.2) ∧
    (addFavourite (some u) songId b2 (addFavourite (some u) songId (Except.ok row) cache).2.2).2.2
        = (addFavourite (some u) songId (Except.ok row) cache).2.2 ∧
    FavsNoDup (addFavourite (some u) songId b2 (addFavourite (some u) songId (Except.ok row) cache).2.2).2.2 := by
  cases hfind : cache.find? (fun fav => fav.song_id == songId && fav.user_id == u.id) with
  | some e =>
    have he : e ∈ cache := List.mem_of_find?_eq_some hfind
    simp only [addFavourite, hfind]
    exact ⟨trivial, ⟨e, rfl, he⟩, trivial, hnd⟩
  | none =>
    have hrow : (fun fav => fav.song_id == songId && fav.user_id == u.id) row = true := by
      simp [hU, hS]
    have hfind2 : (cache ++ [row]).find? (fun fav => fav.song_id == songId && fav.user_id == u.id) = some row := by
      rw [List.find?_append, hfind]
      simp [List.find?, hrow]
    have hall : ∀ a ∈ cache, ¬ ((fun fav => fav.song_id == songId && fav.user_id == u.id) a = true) :=
      List.find?_eq_none.mp hfind
    have hpair : FavsNoDup (cache ++ [row]) := by
      rw [FavsNoDup, List.pairwise_append]
      refine ⟨hnd, List.pairwise_singleton _ _, ?_⟩
      intro a ha b hb
      have hb' : b = row := by simpa using hb
      subst hb'
      have := hall a ha
      simp only [Bool.and_eq_true, beq_iff_eq, not_and_or] at this
      rcases this with h | h
      · right; rw [hS]; exact h
      · left; rw [hU]; exact h
    simp only [addFavourite, hfind, hfind2]
    exact ⟨trivial, ⟨row, rfl, by simp⟩, trivial, hpair⟩

/-- Witness for C3 at a concrete user, song and inserted row. -/
theorem spec_C3_addFavourite_idempotent_witness :
    (addFavourite (some (User.mk "u1" "u1@x" none)) 5 (Except.error "boom")
        (addFavourite (some (User.mk "u1" "u1@x" none)) 5
          (Except.ok (Favourite.mk (some 1) "u1" 5 none none)) []).2.2).1.data
      = (addFavourite (some (User.mk "u1" "u1@x" none)) 5
          (Except.ok (Favourite.mk (some 1) "u1" 5 none none)) []).1.data :=
  (spec_C3_addFavourite_idempotent (User.mk "u1" "u1@x" none) 5 []
    (Favourite.mk (some 1) "u1" 5 none none) (Except.error "boom") rfl rfl List.Pairwise.nil).1

/-- C6 counterexample: `addSongToFolder`, a song-folder link operation,
invoked while no user is authenticated still performs the network call and
does not return a "no user" error: with a successful backend insert it
returns the inserted row with no error at all. -/
theorem spec_C6_counterexample_addSongToFolder_no_guard :
    (addSongToFolder none 1 1 (Except.ok (SongFolder.mk none 1 1 none none))).1.error = none ∧
    (addSongToFolder none 1 1 (Except.ok (SongFolder.mk none 1 1 none none))).2 = true :=
  ⟨rfl, rfl⟩

/-- C6 (amended): every user-scoped favourite and folder operation
(favourite fetch/add/remove, folder fetch/create/update/delete), invoked
while no user is authenticated, returns immediately with the explicit
"No user found" error, performs no network call, and leaves the cache
unchanged — whatever the backend would have answered. The song-folder link
operations carry no such guard. -/
theorem spec_C6_no_user_fails_fast (songId fid : Nat) (name : String)
    (b1 : Except String (List Favourite)) (b2 : Except String Favourite)
    (b3 : Except String Unit) (b4 : Except String (List Folder))
    (b5 : Except String Folder) (cache : List Favourite) (folders : List Folder) :
    fetchFavourites none b1 cache
        = ({ data := some [], error := some "No user found" }, false, cache) ∧
    addFavourite none songId b2 cache
        = ({ data := none, error := some "No user found" }, false, cache) ∧
    removeFavourite none songId b3 cache
        = ({ data := some false, error := some "No user found" }, false, cache) ∧
    fetchFolders none b4 folders
        = ({ data := some [], error := some "No user found" }, false, folders) ∧
    createFolder none name b5 b4 folders
        = ({ data := none, error := some "No user found" }, false, folders) ∧
    updateFolder none fid name b5 b4 folders
        = ({ data := none, error := some "No user found" }, false, folders) ∧
    deleteFolder none fid b3 b4 folders
        = ({ data := some false, error := some "No user found" }, false, folders) :=
  ⟨rfl, rfl, rfl, rfl, rfl, rfl, rfl⟩

/-- C7: `syncAllData` succeeds exactly when all three collection fetches
succeed, and when one or more fail its error message is the comma-joined
concatenation of exactly the individual failure reasons. The hypotheses
record that a fetch never reports an empty-string error (every error path
in the source produces a non-empty message). -/
theorem spec_C7_syncAllData (rs : ApiResponse (List Song)) (rf : ApiResponse (List Favourite))
    (rfo : ApiResponse (List Folder))
    (hs : rs.error ≠ some "") (hf : rf.error ≠ some "") (hfo : rfo.error ≠ some "") :
    ((syncAllData rs rf rfo).data = some true ↔ rs.error = none ∧ rf.error = none ∧ rfo.error = none) ∧
    ((syncAllData rs rf rfo).error = none ↔ rs.error = none ∧ rf.error = none ∧ rfo.error = none) ∧
    (¬ (rs.error = none ∧ rf.error = none ∧ rfo.error = none) →
      (syncAllData rs rf rfo).error
        = some (String.intercalate ", " ([rs.error, rf.error, rfo.error].filterMap id))) := by
  rcases hrs : rs.error with _ | s1 <;> rcases hrf : rf.error with _ | s2 <;> rcases hrfo : rfo.error with _ | s3 <;>
    simp_all [syncAllData, errTruthy, joinedErrors, beq_iff_eq]

/-- Witness for C7 at concrete fetch results: songs and folders fail, the
favourites fetch succeeds, and the aggregate error joins the two reasons. -/
theorem spec_C7_syncAllData_witness :
    (syncAllData (ApiResponse.mk none (some "A")) (ApiResponse.mk (some []) none)
      (ApiResponse.mk none (some "B"))).error = some "A, B" := by
  have h := spec_C7_syncAllData (ApiResponse.mk none (some "A")) (ApiResponse.mk (some []) none)
    (ApiResponse.mk none (some "B")) (by decide) (by decide) (by decide)
  rw [h.2.2 (by simp)]
  rfl

/-- C10: `getFolderSongCount` never surfaces an error: its return type is a
bare count, a backend error yields 0, a null count yields 0, and a genuine
zero count also yields 0 — so a returned 0 is indistinguishable from a
failed count query. -/
theorem spec_C10_getFolderSongCount_never_errors (e : String) (n : Nat) :
    getFolderSongCount (Except.error e) = 0 ∧
    getFolderSongCount (Except.ok none) = 0 ∧
    getFolderSongCount (Except.ok (some 0)) = 0 ∧
    getFolderSongCount (Except.ok (some n)) = n :=
  ⟨rfl, rfl, rfl, rfl⟩

/-- Whitespace test used to model the JavaScript `trim()` of the source. -/
def jsWhitespace (c : Char) : Bool :=
  c == ' ' || c == '\t' || c == '\n' || c == '\r'

/-- Model of `String.prototype.trim`: drops leading and trailing
whitespace. -/
def jsTrim (s : String) : String :=
  String.mk (((s.data.dropWhile jsWhitespace).reverse.dropWhile jsWhitespace).reverse)

/-- Model of `String.prototype.toLowerCase` (ASCII, as used by the
source). -/
def jsToLower (s : String) : String :=
  String.mk (s.data.map Char.toLower)

/-- Boolean test that the first list is an initial segment of the second. -/
def leadsWith : List Char → List Char → Bool
  | [], _ => true
  | _ :: _, [] => false
  | a :: as, b :: bs => a == b && leadsWith as bs

/-- Boolean test that `sub` occurs contiguously inside the second list. -/
def containsSub (sub : List Char) : List Char → Bool
  | [] => sub.isEmpty
  | c :: rest => leadsWith sub (c :: rest) || containsSub sub rest

/-- Model of `String.prototype.startsWith`. -/
def strStartsWith (s p : String) : Bool :=
  leadsWith p.data s.data

/-- Model of `String.prototype.includes`. -/
def strContains (s sub : String) : Bool :=
  containsSub sub.data s.data

/-- Model of the regex test `/^\d+$/.test(query)` of the songs screen:
nonempty and all decimal digits. -/
def isNumberSearchQ (q : String) : Bool :=
  !q.data.isEmpty && q.data.all (fun c => c.isDigit)

/-- Insertion step of the sort used to model `Array.prototype.sort` with a
comparator. -/
def insertLe {α : Type} (le : α → α → Bool) (x : α) : List α → List α
  | [] => [x]
  | y :: ys => if le x y then x :: y :: ys else y :: insertLe le x ys

/-- Model of `Array.prototype.sort` with a comparator, as insertion sort on
the induced boolean order (only the membership of the result matters
below). -/
def sortLe {α : Type} (le : α → α → Bool) : List α → List α
  | [] => []
  | x :: xs => insertLe le x (sortLe le xs)

/-- Comparator of the number-search branch of the songs screen:
ascending song number. -/
def numberLe (a b : Song) : Bool :=
  decide (a.song_number ≤ b.song_number)

/-- Lexicographic order on character lists, modelling `localeCompare`. -/
def charListLe : List Char → List Char → Bool
  | [], _ => true
  | _ :: _, [] => false
  | a :: as, b :: bs => if a == b then charListLe as bs else decide (a < b)

/-- Comparator of the text-search branch of the songs screen: alphabetical
by title. -/
def titleLe (a b : Song) : Bool :=
  charListLe a.title.data b.title.data

/-- Embedding of `filteredSongs` of the songs screen: an empty (or
all-whitespace) query returns the full list; otherwise the query is
lowercased and trimmed, a pure-digit query matches songs whose decimal song
number equals or starts with the query, any other query matches songs whose
lowercased title contains the query, and the matches are sorted by song
number (number search) or title (text search). -/
def filteredSongs (searchQuery : String) (allSongs : List Song) : List Song :=
  if jsTrim searchQuery == "" then allSongs
  else
    let query := jsTrim (jsToLower searchQuery)
    let isNumberSearch := isNumberSearchQ query
    sortLe
      (fun a b => if isNumberSearch then numberLe a b else titleLe a b)
      (allSongs.filter (fun song =>
        if isNumberSearch then
          toString song.song_number == query || strStartsWith (toString song.song_number) query
        else
          strContains (jsToLower song.title) query))

/-- Membership in the insertion step of `sortLe`. -/
theorem mem_insertLe {α : Type} (le : α → α → Bool) (x a : α) (l : List α) :
    a ∈ insertLe le x l ↔ a = x ∨ a ∈ l := by
  induction l with
  | nil => simp [insertLe]
  | cons y ys ih =>
    unfold insertLe
    split
    · simp
    · simp [ih, or_left_comm]

/-- Membership is preserved by `sortLe`. -/
theorem mem_sortLe {α : Type} (le : α → α → Bool) (a : α) (l : List α) :
    a ∈ sortLe le l ↔ a ∈ l := by
  induction l with
  | nil => simp [sortLe]
  | cons x xs ih => simp [sortLe, mem_insertLe, ih]

/-- The boolean initial-segment test agrees with `List.IsPrefix`. -/
theorem leadsWith_iff (p l : List Char) : leadsWith p l = true ↔ p <+: l := by
  induction p generalizing l with
  | nil => simp [leadsWith]
  | cons a as ih =>
    cases l with
    | nil => simp [leadsWith]
    | cons b bs => simp [leadsWith, List.cons_prefix_cons, ih]

/-- The boolean substring test agrees with `List.IsInfix`. -/
theorem containsSub_iff (sub l : List Char) : containsSub sub l = true ↔ sub <:+: l := by
  induction l with
  | nil => simp [containsSub, List.isEmpty_iff, List.infix_nil]
  | cons c rest ih => simp [containsSub, leadsWith_iff, ih, List.infix_cons_iff]

/-- C4: song search on the songs screen. An empty or all-whitespace query
returns the full song list unchanged (the plain-fetch result); a
pure-numeric query selects exactly the songs whose decimal song number
equals the query or begins with it; a non-numeric query selects exactly the
songs whose title contains the query case-insensitively. -/
theorem spec_C4_song_search (q : String) (allSongs : List Song) (s : Song) :
    (jsTrim q = "" → filteredSongs q allSongs = allSongs) ∧
    (jsTrim q ≠ "" → isNumberSearchQ (jsTrim (jsToLower q)) = true →
      (s ∈ filteredSongs q allSongs ↔ s ∈ allSongs ∧
        (toString s.song_number = jsTrim (jsToLower q) ∨
          (jsTrim (jsToLower q)).data <+: (toString s.song_number).data))) ∧
    (jsTrim q ≠ "" → isNumberSearchQ (jsTrim (jsToLower q)) = false →
      (s ∈ filteredSongs q allSongs ↔ s ∈ allSongs ∧
        (jsTrim (jsToLower q)).data <:+: (jsToLower s.title).data)) := by
  refine ⟨?_, ?_, ?_⟩
  · intro h
    simp [filteredSongs, h]
  · intro hne hnum
    have hcond : (jsTrim q == "") = false := by
      simpa using hne
    simp [filteredSongs, hcond, hnum, mem_sortLe, List.mem_filter, strStartsWith,
      leadsWith_iff, and_congr_right_iff]
  · intro hne hnum
    have hcond : (jsTrim q == "") = false := by
      simpa using hne
    simp [filteredSongs, hcond, hnum, mem_sortLe, List.mem_filter, strContains,
      containsSub_iff]

/-- Witness for C4 at the spec example: query "1" matches the song numbered
12 because its decimal form begins with "1". -/
theorem spec_C4_song_search_witness :
    (Song.mk 2 12 "Holy Night" "" none none) ∈ filteredSongs "1"
      [Song.mk 1 1 "Amazing Grace" "" none none, Song.mk 2 12 "Holy Night" "" none none] := by
  have h := (spec_C4_song_search "1"
    [Song.mk 1 1 "Amazing Grace" "" none none, Song.mk 2 12 "Holy Night" "" none none]
    (Song.mk 2 12 "Holy Night" "" none none)).2.1 (by decide) (by decide)
  exact h.mpr (by decide)
